import Mathlib

/-
  Verification development for the LEDControl library (LEDControl.cpp).

  The library drives an addressable LED strip through a per-strip state
  machine: a caller selects an animation mode through a setter and then
  repeatedly calls update(), which rewrites the pixel buffer by one
  animation step.  The definitions below are a shallow embedding of
  LEDControl.cpp: the member fields of the C++ class become fields of the
  structure LEDControl, each member function becomes a Lean function from
  state to state, and the 32-bit unsigned long bitmap arithmetic is
  embedded as Nat arithmetic with explicit reduction modulo 2^32.
-/

set_option maxHeartbeats 1000000
set_option maxRecDepth 4000

/-- Pixel colors.  The source stores CRGB triples (three bytes) supplied by
the external FastLED collaborator.  Values produced by FastLED's HSV
conversion (`CHSV(h,s,v)` assigned to a CRGB) are kept as a separate
constructor because the conversion itself is external library code outside
this repository; the development never needs its internals, only equality
of converted values with equal arguments. -/
inductive CRGB where
  | mk (r g b : Nat) : CRGB
  | chsv (h s v : Nat) : CRGB
deriving DecidableEq

/-- CRGB::Black. -/
def CRGB.Black : CRGB := CRGB.mk 0 0 0

/-- FastLED scale8_video: scales a byte by scale/256 but never rounds a
nonzero channel down to zero (external FastLED collaborator semantics). -/
def scale8_video (i scale : Nat) : Nat :=
  if i = 0 then 0 else i * scale / 256 + (if scale = 0 then 0 else 1)

/-- FastLED nscale8x3_video, the effect of the CRGB operator `%=` used by
the Breathe mode: video-scale every channel.  Opaque HSV-converted values
are never scaled anywhere in this development (Breathe scales the caller
supplied base color), so that branch returns the value unchanged. -/
def nscale8x3_video : CRGB → Nat → CRGB
  | CRGB.mk r g b, s => CRGB.mk (scale8_video r s) (scale8_video g s) (scale8_video b s)
  | CRGB.chsv h sv v, _ => CRGB.chsv h sv v

/-- CHSV(h,s,v) assigned into a CRGB slot: the arguments are uint8_t, hence
the reduction modulo 256; the conversion itself is the opaque external
constructor. -/
def CHSV (h s v : Nat) : CRGB := CRGB.chsv (h % 256) (s % 256) (v % 256)

/-- The `_dimming` brightness map of LEDControl.cpp line 25. -/
def _dimming : List Nat := [235,206,179,154,131,110,91,74,59,46,35,26,19,14,11,10]

/-- `_numdims` (line 26). -/
def _numdims : Nat := 16

/-- The operating modes declared in LEDControl.h (the header is not part of
the sources at hand; the mode set is taken from the dispatch in update()).
The concrete integer encodings are irrelevant to the embedding. -/
inductive Mode where
  | MODE_UNDEF | MODE_OFF | MODE_ON | MODE_RUNFWD | MODE_RUNREV
  | MODE_RAINBF | MODE_RAINBR | MODE_CYLON | MODE_BITMAP | MODE_MARQUEE
  | MODE_BREATHE
deriving DecidableEq

open Mode

/-- The member state of the LEDControl class.  `_ledCount` is the C++ int
member; `_bitmap` is the 32-bit unsigned long member, kept below 2^32 by
every assignment; `_leds` is the caller-owned CRGB array. -/
structure LEDControl where
  _ledCount : Int
  _leds : List CRGB
  _newMode : Bool
  _mode : Mode
  _color : CRGB
  _config : Nat
  _curdir : Mode
  _bitmap : Nat
deriving DecidableEq

/-- The constructor LEDControl::LEDControl (lines 29-38).  It saves the
attributes and performs no validation of num_leds.  The source stores the
integer 0 into `_curdir` (a numeric mode encoding from the missing header)
and leaves `_bitmap` uninitialized; neither is read before being
reassigned, and they are modelled as MODE_UNDEF and 0. -/
def mkLEDControl (num_leds : Int) (leds : List CRGB) : LEDControl :=
  { _ledCount := num_leds
    _leds := leds
    _newMode := true
    _mode := MODE_OFF
    _color := CRGB.Black
    _config := 0
    _curdir := MODE_UNDEF
    _bitmap := 0 }

/-- getMode (lines 41-44). -/
def getMode (s : LEDControl) : Mode := s._mode

/-- FastLED fill_solid(leds, n, c): overwrite the first n entries of the
buffer with c. -/
def fill_solid (l : List CRGB) (n : Nat) (c : CRGB) : List CRGB :=
  List.replicate n c ++ l.drop n

/-- setOneColor (lines 47-52). -/
def setOneColor (color : CRGB) (s : LEDControl) : LEDControl :=
  { s with _newMode := true, _mode := MODE_ON, _color := color }

/-- setRunFwd (lines 56-61). -/
def setRunFwd (color : CRGB) (s : LEDControl) : LEDControl :=
  { s with _newMode := true, _mode := MODE_RUNFWD, _color := color }

/-- setRunRev (lines 66-71). -/
def setRunRev (color : CRGB) (s : LEDControl) : LEDControl :=
  { s with _newMode := true, _mode := MODE_RUNREV, _color := color }

/-- setRainbowFwd (lines 74-78). -/
def setRainbowFwd (s : LEDControl) : LEDControl :=
  { s with _newMode := true, _mode := MODE_RAINBF }

/-- setRainbowRev (lines 81-85). -/
def setRainbowRev (s : LEDControl) : LEDControl :=
  { s with _newMode := true, _mode := MODE_RAINBR }

/-- setCylon (lines 88-93). -/
def setCylon (color : CRGB) (s : LEDControl) : LEDControl :=
  { s with _newMode := true, _mode := MODE_CYLON, _color := color }

/-- setPattern (lines 95-101); the bitmap argument is an unsigned long. -/
def setPattern (color : CRGB) (bitmap : Nat) (s : LEDControl) : LEDControl :=
  { s with _newMode := true, _mode := MODE_BITMAP, _color := color,
           _bitmap := bitmap % 2 ^ 32 }

/-- setProgress (lines 107-117).  The source computes
`int lit = (_ledCount*percent)/100.0;` after clamping percent into
[0,100]: a double division truncated to int, which for the magnitudes
involved is exactly integer division truncated toward zero (Int.tdiv).
`_bitmap = ((1UL<<lit)-1)` is a 32-bit shift; on the 32-bit targets the
library runs on the hardware shifter uses the shift count modulo 32, which
is the semantics embedded here (lit % 32 with Euclidean remainder). -/
def setProgress (color : CRGB) (percent : Int) (s : LEDControl) : LEDControl :=
  let p1 : Int := if percent > 100 then 100 else percent
  let p2 : Int := if p1 < 0 then 0 else p1
  let lit : Int := Int.tdiv (s._ledCount * p2) 100
  { s with _newMode := true, _mode := MODE_BITMAP, _color := color,
           _bitmap := 2 ^ ((lit % 32).toNat) - 1 }

/-- setMarquee (lines 119-125). -/
def setMarquee (color : CRGB) (bitmap : Nat) (s : LEDControl) : LEDControl :=
  { s with _newMode := true, _mode := MODE_MARQUEE, _color := color,
           _bitmap := bitmap % 2 ^ 32 }

/-- setBreathe (lines 127-134). -/
def setBreathe (color : CRGB) (s : LEDControl) : LEDControl :=
  { s with _newMode := true, _mode := MODE_BREATHE, _config := 0,
           _curdir := MODE_RUNFWD, _color := color }

/-- shiftFwd (lines 336-343) acting on the buffer: the last of the first n
entries moves to the front, the others move one index up; entries beyond
n are untouched. -/
def shiftFwdBuf (n : Nat) (l : List CRGB) : List CRGB :=
  if n = 0 then l
  else l.getD (n - 1) CRGB.Black :: (l.take (n - 1) ++ l.drop n)

/-- shiftRev (lines 345-352) acting on the buffer. -/
def shiftRevBuf (n : Nat) (l : List CRGB) : List CRGB :=
  if n = 0 then l
  else ((l.take n).drop 1 ++ [l.getD 0 CRGB.Black]) ++ l.drop n

/-- LEDControl::shiftFwd. -/
def shiftFwd (s : LEDControl) : LEDControl :=
  { s with _leds := shiftFwdBuf s._ledCount.toNat s._leds }

/-- LEDControl::shiftRev. -/
def shiftRev (s : LEDControl) : LEDControl :=
  { s with _leds := shiftRevBuf s._ledCount.toNat s._leds }

/-- The rendering loop shared by MODE_BITMAP and the first MODE_MARQUEE
tick (lines 263-267 and 275-279): for i below m, pixels whose bitmap bit
is set get the color, the others are left as they are. -/
def bitmapLoop (bitmap : Nat) (color : CRGB) (m : Nat) (l : List CRGB) : List CRGB :=
  (List.range m).foldl
    (fun acc i => if bitmap.testBit i then acc.set i color else acc) l

/-- The rendering loop of the steady MODE_MARQUEE tick (lines 285-289):
for i below m, set pixels whose bitmap bit is set to the color and the
others to black. -/
def marqueeLoop (bitmap : Nat) (color : CRGB) (m : Nat) (l : List CRGB) : List CRGB :=
  (List.range m).foldl
    (fun acc i => if bitmap.testBit i then acc.set i color else acc.set i CRGB.Black) l

/-- update (lines 140-334): one animation tick. -/
def update (s : LEDControl) : LEDControl :=
  match s._mode with
  | MODE_UNDEF => s
  | MODE_OFF =>
      if s._newMode then
        { s with _leds := fill_solid s._leds s._ledCount.toNat CRGB.Black,
                 _newMode := false }
      else s
  | MODE_ON =>
      if s._newMode then
        { s with _leds := fill_solid s._leds s._ledCount.toNat s._color,
                 _newMode := false }
      else s
  | MODE_RUNFWD =>
      if s._newMode then
        { s with _leds := (fill_solid s._leds s._ledCount.toNat CRGB.Black).set 0 s._color,
                 _newMode := false }
      else shiftFwd s
  | MODE_RUNREV =>
      if s._newMode then
        { s with _leds := (fill_solid s._leds s._ledCount.toNat CRGB.Black).set
                            (s._ledCount.toNat - 1) s._color,
                 _newMode := false }
      else shiftRev s
  | MODE_RAINBF =>
      let delta := 256 / s._ledCount.toNat
      if s._newMode then
        { s with _leds := (List.range s._ledCount.toNat).map
                            (fun i => CHSV (i * delta) 255 255)
                            ++ s._leds.drop s._ledCount.toNat,
                 _newMode := false, _mode := MODE_RUNFWD }
      else s
  | MODE_RAINBR =>
      let delta := 256 / s._ledCount.toNat
      if s._newMode then
        { s with _leds := (List.range s._ledCount.toNat).map
                            (fun i => CHSV (i * delta) 255 255)
                            ++ s._leds.drop s._ledCount.toNat,
                 _newMode := false, _mode := MODE_RUNREV }
      else s
  | MODE_CYLON =>
      if s._newMode then
        { s with _leds := (fill_solid s._leds s._ledCount.toNat CRGB.Black).set 0 s._color,
                 _curdir := MODE_RUNFWD, _newMode := false }
      else
        if s._curdir = MODE_RUNFWD then
          if s._leds.getD (s._ledCount.toNat - 1) CRGB.Black = s._color then
            { s with _curdir := MODE_RUNREV }
          else shiftFwd s
        else
          if s._leds.getD 0 CRGB.Black = s._color then
            { s with _curdir := MODE_RUNFWD }
          else shiftRev s
  | MODE_BITMAP =>
      if s._newMode then
        { s with _leds := bitmapLoop s._bitmap s._color (min s._ledCount 32).toNat
                            (fill_solid s._leds s._ledCount.toNat CRGB.Black),
                 _newMode := false }
      else s
  | MODE_MARQUEE =>
      if s._newMode then
        { s with _leds := bitmapLoop s._bitmap s._color (min s._ledCount 32).toNat
                            (fill_solid s._leds s._ledCount.toNat CRGB.Black),
                 _newMode := false }
      else
        let m : Int := min s._ledCount 32
        let b := ((s._bitmap <<< 1) % 2 ^ 32) ||| (s._bitmap >>> (((m - 1) % 32).toNat))
        { s with _bitmap := b, _leds := marqueeLoop b s._color m.toNat s._leds }
  | MODE_BREATHE =>
      let s1 := if s._newMode then
                  { s with _newMode := false, _curdir := MODE_RUNFWD, _config := 0 }
                else s
      let c := nscale8x3_video s1._color (_dimming.getD s1._config 0)
      let s2 := { s1 with _leds := fill_solid s1._leds s1._ledCount.toNat c }
      if s1._curdir = MODE_RUNFWD then
        if s1._config = _numdims - 1 then { s2 with _curdir := MODE_RUNREV }
        else { s2 with _config := s1._config + 1 }
      else
        if s1._config = 0 then { s2 with _curdir := MODE_RUNFWD }
        else { s2 with _config := s1._config - 1 }

/-! ### Buffer helper lemmas -/

theorem getD_fill_solid (l : List CRGB) (n : Nat) (c : CRGB) (i : Nat) (d : CRGB) :
    (fill_solid l n c).getD i d = if i < n then c else l.getD i d := by
  simp only [fill_solid, List.getD_eq_getElem?_getD, List.getElem?_append,
    List.length_replicate, List.getElem?_replicate, List.getElem?_drop]
  rcases lt_or_ge i n with h | h
  · simp [h]
  · simp [Nat.not_lt.2 h, Nat.add_sub_cancel' h]

theorem length_fill_solid (l : List CRGB) (n : Nat) (c : CRGB) :
    (fill_solid l n c).length = n + (l.length - n) := by
  simp [fill_solid]

theorem getD_set (l : List CRGB) (j i : Nat) (a d : CRGB) :
    (l.set j a).getD i d = if j = i ∧ j < l.length then a else l.getD i d := by
  simp only [List.getD_eq_getElem?_getD, List.getElem?_set]
  rcases eq_or_ne j i with rfl | hne
  · rcases lt_or_ge j l.length with h | h
    · simp [h]
    · simp [Nat.not_lt.2 h, List.getElem?_eq_none h]
  · simp [hne]

theorem bitmapLoop_succ (bmp : Nat) (c : CRGB) (m : Nat) (l : List CRGB) :
    bitmapLoop bmp c (m + 1) l =
      if bmp.testBit m then (bitmapLoop bmp c m l).set m c else bitmapLoop bmp c m l := by
  simp only [bitmapLoop, List.range_succ, List.foldl_append, List.foldl_cons, List.foldl_nil]

theorem length_bitmapLoop (bmp : Nat) (c : CRGB) (m : Nat) (l : List CRGB) :
    (bitmapLoop bmp c m l).length = l.length := by
  induction m with
  | zero => rfl
  | succ m ih => rw [bitmapLoop_succ]; split <;> simp [ih]

theorem getD_bitmapLoop (bmp : Nat) (c : CRGB) (m : Nat) (l : List CRGB) (i : Nat) (d : CRGB)
    (hi : i < l.length) :
    (bitmapLoop bmp c m l).getD i d =
      if i < m ∧ bmp.testBit i then c else l.getD i d := by
  induction m with
  | zero => simp [bitmapLoop]
  | succ m ih =>
    rw [bitmapLoop_succ]
    rcases htb : bmp.testBit m with _ | _
    · simp only [htb, if_false, Bool.false_eq_true]
      rw [ih]
      rcases eq_or_ne i m with rfl | hne
      · simp [htb]
      · have : (i < m + 1 ∧ bmp.testBit i = true) ↔ (i < m ∧ bmp.testBit i = true) := by
          constructor
          · rintro ⟨h1, h2⟩; exact ⟨by omega, h2⟩
          · rintro ⟨h1, h2⟩; exact ⟨by omega, h2⟩
        simp [this]
    · simp only [htb, if_true]
      rw [getD_set, length_bitmapLoop, ih]
      rcases eq_or_ne m i with rfl | hne
      · simp [htb, hi]
      · have h1 : ¬(m = i ∧ m < l.length) := by tauto
        have h2 : (i < m + 1 ∧ bmp.testBit i = true) ↔ (i < m ∧ bmp.testBit i = true) := by
          constructor
          · rintro ⟨ha, hb⟩; exact ⟨by omega, hb⟩
          · rintro ⟨ha, hb⟩; exact ⟨by omega, hb⟩
        simp [h1, h2]

theorem marqueeLoop_succ (bmp : Nat) (c : CRGB) (m : Nat) (l : List CRGB) :
    marqueeLoop bmp c (m + 1) l =
      if bmp.testBit m then (marqueeLoop bmp c m l).set m c
      else (marqueeLoop bmp c m l).set m CRGB.Black := by
  simp only [marqueeLoop, List.range_succ, List.foldl_append, List.foldl_cons, List.foldl_nil]

theorem length_marqueeLoop (bmp : Nat) (c : CRGB) (m : Nat) (l : List CRGB) :
    (marqueeLoop bmp c m l).length = l.length := by
  induction m with
  | zero => rfl
  | succ m ih => rw [marqueeLoop_succ]; split <;> simp [ih]

theorem getD_marqueeLoop (bmp : Nat) (c : CRGB) (m : Nat) (l : List CRGB) (i : Nat) (d : CRGB)
    (hi : i < l.length) :
    (marqueeLoop bmp c m l).getD i d =
      if i < m then (if bmp.testBit i then c else CRGB.Black) else l.getD i d := by
  induction m with
  | zero => simp [marqueeLoop]
  | succ m ih =>
    rw [marqueeLoop_succ]
    have hlen := length_marqueeLoop bmp c m l
    rcases eq_or_ne m i with rfl | hne
    · rcases htb : bmp.testBit m with _ | _ <;>
        simp [getD_set, hlen, hi, htb, Nat.lt_succ_self]
    · have hiff : i < m + 1 ↔ i < m := by omega
      rcases htb : bmp.testBit m with _ | _ <;>
        · simp only [htb, if_true, if_false, Bool.false_eq_true]
          rw [getD_set, hlen, ih]
          simp [hne, hiff]

/-! ### Mode-stability lemmas -/

theorem update_mode_runfwd_stable (s : LEDControl) (h : s._mode = MODE_RUNFWD) :
    (update s)._mode = MODE_RUNFWD := by
  cases hnm : s._newMode <;> simp [update, h, hnm, shiftFwd]

theorem update_mode_runrev_stable (s : LEDControl) (h : s._mode = MODE_RUNREV) :
    (update s)._mode = MODE_RUNREV := by
  cases hnm : s._newMode <;> simp [update, h, hnm, shiftRev]

/-! ### Claim C2 -/

/-- C2 counterexample: the claim says that for pixelCount 0 (which is ≤ 0)
construction fails and no Animator is produced.  The constructor at lines
29-38 performs no validation at all: called with pixel count 0 it produces
an Animator in the Off/black state exactly as for a positive count, so the
claimed construction error does not exist in the code. -/
theorem C2_counterexample :
    (mkLEDControl 0 [])._mode = MODE_OFF ∧
    (mkLEDControl 0 [])._color = CRGB.Black ∧
    (mkLEDControl 0 [])._newMode = true :=
  ⟨rfl, rfl, rfl⟩

/-- C2 amended: construction never fails; for every pixelCount (positive,
zero or negative) the constructor produces an Animator with mode = Off and
color = black (and the fresh-mode flag set), performing no validation. -/
theorem C2_construct_always_off_black (num_leds : Int) (leds : List CRGB) :
    (mkLEDControl num_leds leds)._mode = MODE_OFF ∧
    (mkLEDControl num_leds leds)._color = CRGB.Black ∧
    (mkLEDControl num_leds leds)._newMode = true ∧
    (mkLEDControl num_leds leds)._ledCount = num_leds ∧
    (mkLEDControl num_leds leds)._leds = leds :=
  ⟨rfl, rfl, rfl, rfl, rfl⟩

/-! ### Claim C8 -/

theorem update_fixed_of_static (s : LEDControl)
    (hm : s._mode = MODE_ON ∨ s._mode = MODE_BITMAP) (hn : s._newMode = false) :
    update s = s := by
  rcases hm with h | h <;> simp [update, h, hn]

theorem update_static_newMode (s : LEDControl)
    (hm : s._mode = MODE_ON ∨ s._mode = MODE_BITMAP) :
    (update s)._newMode = false ∧ (update s)._mode = s._mode := by
  rcases hm with h | h <;> cases hnm : s._newMode <;> simp [update, h, hnm]

/-- C8: in SolidColor (MODE_ON) or BitmapPattern (MODE_BITMAP) mode, any
number of further ticks after the first leaves the pixel buffer exactly as
the first tick left it: the state after the first tick is a fixed point of
update. -/
theorem C8_static_modes_idempotent (s : LEDControl)
    (hm : s._mode = MODE_ON ∨ s._mode = MODE_BITMAP) (k : Nat) :
    (update^[k] (update s))._leds = (update s)._leds := by
  have hstat := update_static_newMode s hm
  have hm2 : (update s)._mode = MODE_ON ∨ (update s)._mode = MODE_BITMAP := by
    rcases hm with h | h
    · exact Or.inl (hstat.2.trans h)
    · exact Or.inr (hstat.2.trans h)
  have hfix : update (update s) = update s := update_fixed_of_static _ hm2 hstat.1
  rw [Function.iterate_fixed hfix]

/-- C8 witness: three extra ticks in SolidColor mode on a freshly
constructed 2-pixel strip leave the buffer of the first tick unchanged. -/
theorem C8_witness :
    (update^[3] (update (setOneColor (CRGB.mk 255 0 0)
        (mkLEDControl 2 (List.replicate 2 CRGB.Black)))))._leds
      = (update (setOneColor (CRGB.mk 255 0 0)
        (mkLEDControl 2 (List.replicate 2 CRGB.Black))))._leds :=
  C8_static_modes_idempotent _ (Or.inl rfl) 3

/-! ### Claim C7 -/

/-- C7: after setRainbowFwd (resp. setRainbowRev), the first tick writes
the full hue sweep — pixel i receives the external conversion of hue
`i * (256 / N)` (integer division, as computed at lines 194/212) at full
saturation and value — and switches the mode to MODE_RUNFWD (resp.
MODE_RUNREV); the mode reported by getMode after the first tick is
MODE_RUNFWD (resp. MODE_RUNREV) and stays so on every later tick, never
remaining a rainbow mode. -/
theorem C7_rainbow_switches_to_run (s : LEDControl) (N : Nat)
    (hcnt : s._ledCount = (N : Int)) (_hN : 0 < N) :
    (getMode (update (setRainbowFwd s)) = MODE_RUNFWD ∧
     (∀ i, i < N → (update (setRainbowFwd s))._leds.getD i CRGB.Black
        = CHSV (i * (256 / N)) 255 255) ∧
     (∀ k, getMode (update^[k + 1] (setRainbowFwd s)) = MODE_RUNFWD)) ∧
    (getMode (update (setRainbowRev s)) = MODE_RUNREV ∧
     (∀ i, i < N → (update (setRainbowRev s))._leds.getD i CRGB.Black
        = CHSV (i * (256 / N)) 255 255) ∧
     (∀ k, getMode (update^[k + 1] (setRainbowRev s)) = MODE_RUNREV)) := by
  have htoNat : s._ledCount.toNat = N := by rw [hcnt]; exact Int.toNat_natCast N
  constructor
  · have h1 : getMode (update (setRainbowFwd s)) = MODE_RUNFWD := by
      simp [update, setRainbowFwd, getMode]
    have h2 : ∀ i, i < N → (update (setRainbowFwd s))._leds.getD i CRGB.Black
        = CHSV (i * (256 / N)) 255 255 := by
      intro i hiN
      simp only [update, setRainbowFwd, htoNat, List.getD_eq_getElem?_getD,
        List.getElem?_append, List.length_map, List.length_range, hiN, if_true,
        List.getElem?_map, List.getElem?_range hiN]
      rfl
    refine ⟨h1, h2, ?_⟩
    intro k
    induction k with
    | zero => exact h1
    | succ k ih =>
      rw [Function.iterate_succ_apply']
      exact update_mode_runfwd_stable _ ih
  · have h1 : getMode (update (setRainbowRev s)) = MODE_RUNREV := by
      simp [update, setRainbowRev, getMode]
    have h2 : ∀ i, i < N → (update (setRainbowRev s))._leds.getD i CRGB.Black
        = CHSV (i * (256 / N)) 255 255 := by
      intro i hiN
      simp only [update, setRainbowRev, htoNat, List.getD_eq_getElem?_getD,
        List.getElem?_append, List.length_map, List.length_range, hiN, if_true,
        List.getElem?_map, List.getElem?_range hiN]
      rfl
    refine ⟨h1, h2, ?_⟩
    intro k
    induction k with
    | zero => exact h1
    | succ k ih =>
      rw [Function.iterate_succ_apply']
      exact update_mode_runrev_stable _ ih

/-- C7 witness: on a fresh 4-pixel strip, the tick after setRainbowFwd
reports mode MODE_RUNFWD. -/
theorem C7_witness :
    getMode (update (setRainbowFwd (mkLEDControl 4 (List.replicate 4 CRGB.Black))))
      = MODE_RUNFWD :=
  (C7_rainbow_switches_to_run (mkLEDControl 4 (List.replicate 4 CRGB.Black)) 4
    rfl (by decide)).1.1

/-! ### Claim C9 -/

/-- States reachable from construction by any sequence of setter and
update calls. -/
inductive Reachable : LEDControl → Prop where
  | construct (num_leds : Int) (leds : List CRGB) : Reachable (mkLEDControl num_leds leds)
  | oneColor (c : CRGB) {s : LEDControl} : Reachable s → Reachable (setOneColor c s)
  | runFwd (c : CRGB) {s : LEDControl} : Reachable s → Reachable (setRunFwd c s)
  | runRev (c : CRGB) {s : LEDControl} : Reachable s → Reachable (setRunRev c s)
  | rainbowFwd {s : LEDControl} : Reachable s → Reachable (setRainbowFwd s)
  | rainbowRev {s : LEDControl} : Reachable s → Reachable (setRainbowRev s)
  | cylon (c : CRGB) {s : LEDControl} : Reachable s → Reachable (setCylon c s)
  | pattern (c : CRGB) (b : Nat) {s : LEDControl} : Reachable s → Reachable (setPattern c b s)
  | progress (c : CRGB) (p : Int) {s : LEDControl} : Reachable s → Reachable (setProgress c p s)
  | marquee (c : CRGB) (b : Nat) {s : LEDControl} : Reachable s → Reachable (setMarquee c b s)
  | breathe (c : CRGB) {s : LEDControl} : Reachable s → Reachable (setBreathe c s)
  | tick {s : LEDControl} : Reachable s → Reachable (update s)

theorem update_config_le (s : LEDControl) (h : s._config ≤ 15) :
    (update s)._config ≤ 15 := by
  cases hm : s._mode <;> simp only [update, hm, shiftFwd, shiftRev]
  case MODE_UNDEF => exact h
  case MODE_OFF => split <;> exact h
  case MODE_ON => split <;> exact h
  case MODE_RUNFWD => split <;> exact h
  case MODE_RUNREV => split <;> exact h
  case MODE_RAINBF => split <;> exact h
  case MODE_RAINBR => split <;> exact h
  case MODE_CYLON => split <;> (try split) <;> (try split) <;> exact h
  case MODE_BITMAP => split <;> exact h
  case MODE_MARQUEE => split <;> exact h
  case MODE_BREATHE =>
    cases hnm : s._newMode
    case false =>
      simp only [hnm, Bool.false_eq_true, if_false]
      split <;> split <;> simp_all [_numdims] <;> omega
    case true =>
      simp only [hnm, if_true]
      norm_num [_numdims]

/-- C9: in every state reachable from construction by any sequence of
setter and tick calls, the dimming index `_config` used by Breathe lies
within [0, numDimLevels-1] = [0, 15] (the lower bound is inherent to the
Nat embedding; the source only increments from values below 15 and only
decrements from nonzero values). -/
theorem C9_dimStep_invariant (s : LEDControl) (h : Reachable s) : s._config ≤ 15 := by
  induction h with
  | construct n l => simp [mkLEDControl]
  | oneColor c _ ih => simpa [setOneColor] using ih
  | runFwd c _ ih => simpa [setRunFwd] using ih
  | runRev c _ ih => simpa [setRunRev] using ih
  | rainbowFwd _ ih => simpa [setRainbowFwd] using ih
  | rainbowRev _ ih => simpa [setRainbowRev] using ih
  | cylon c _ ih => simpa [setCylon] using ih
  | pattern c b _ ih => simpa [setPattern] using ih
  | progress c p _ ih => simpa [setProgress] using ih
  | marquee c b _ ih => simpa [setMarquee] using ih
  | breathe c _ ih => simp [setBreathe]
  | tick _ ih => exact update_config_le _ ih

/-- C9 witness: the freshly constructed 4-pixel strip is reachable and
satisfies the dimming-index bound. -/
theorem C9_witness :
    (mkLEDControl 4 (List.replicate 4 CRGB.Black))._config ≤ 15 :=
  C9_dimStep_invariant _ (Reachable.construct 4 (List.replicate 4 CRGB.Black))

/-- The first tick in MODE_BITMAP: clear the buffer to black, then light
the set bits of the bitmap within min(ledCount,32). -/
theorem update_bitmap_fresh (t : LEDControl) (hm : t._mode = MODE_BITMAP)
    (hn : t._newMode = true) :
    (update t)._leds = bitmapLoop t._bitmap t._color (min t._ledCount 32).toNat
      (fill_solid t._leds t._ledCount.toNat CRGB.Black) := by
  simp [update, hm, hn]

/-! ### Claim C10 -/

/-- C10 counterexample for the parenthetical generalization to wider
strips: on a 33-pixel strip at 100 percent, lit = 33, the wrapped shift
count is 1, the stored bitmap is 1, and the subsequent tick lights pixel 0
— full progress is not an empty bar on every strip wider than 32 pixels. -/
theorem C10_counterexample :
    (update (setProgress (CRGB.mk 255 0 0) 100
        (mkLEDControl 33 (List.replicate 33 CRGB.Black))))._leds.getD 0 CRGB.Black
      = CRGB.mk 255 0 0 ∧
    CRGB.mk 255 0 0 ≠ CRGB.Black := by
  constructor
  · decide
  · decide

/-- C10 amended: with pixelCount = 32, setProgress(color, 100) computes
lit = 32, so under the wraparound (shift-count mod 32) semantics the
stored bitmap is (1 shifted by 0) - 1 = 0, and the subsequent tick lights
none of the 32 pixels: full progress renders as an empty bar on a
32-pixel strip (the generalization to all wider strips fails, e.g. at 33
pixels, where the wrapped shift leaves bit 0 set). -/
theorem C10_full_progress_empty_bar (s : LEDControl) (c : CRGB)
    (hcnt : s._ledCount = 32) :
    (setProgress c 100 s)._bitmap = 0 ∧
    ∀ i, i < 32 → (update (setProgress c 100 s))._leds.getD i CRGB.Black = CRGB.Black := by
  have hbm : (setProgress c 100 s)._bitmap = 0 := by
    simp [setProgress, hcnt]
    decide
  refine ⟨hbm, ?_⟩
  intro i hi
  have hleds : (update (setProgress c 100 s))._leds
      = bitmapLoop 0 c ((min (32:Int) 32).toNat)
          (fill_solid s._leds (32:Int).toNat CRGB.Black) := by
    rw [update_bitmap_fresh _ (by simp [setProgress]) (by simp [setProgress])]
    rw [hbm]
    simp [setProgress, hcnt]
  have hfl : (fill_solid s._leds (32:Int).toNat CRGB.Black).length
      = 32 + (s._leds.length - 32) := by
    simpa using length_fill_solid s._leds (32:Int).toNat CRGB.Black
  have hilen : i < (fill_solid s._leds (32:Int).toNat CRGB.Black).length := by omega
  rw [hleds, getD_bitmapLoop _ _ _ _ _ _ hilen, getD_fill_solid]
  simp [Nat.zero_testBit, hi]

/-- C10 witness: instantiation of the amended claim on a freshly
constructed 32-pixel strip, checking pixel 5 stays black after full
progress. -/
theorem C10_witness :
    (setProgress (CRGB.mk 0 255 0) 100
        (mkLEDControl 32 (List.replicate 32 CRGB.Black)))._bitmap = 0 ∧
    (update (setProgress (CRGB.mk 0 255 0) 100
        (mkLEDControl 32 (List.replicate 32 CRGB.Black))))._leds.getD 5 CRGB.Black
      = CRGB.Black :=
  ⟨(C10_full_progress_empty_bar (mkLEDControl 32 (List.replicate 32 CRGB.Black))
      (CRGB.mk 0 255 0) rfl).1,
   (C10_full_progress_empty_bar (mkLEDControl 32 (List.replicate 32 CRGB.Black))
      (CRGB.mk 0 255 0) rfl).2 5 (by decide)⟩

/-! ### Claim C3 -/

/-- Modelled from the spec: the number of pixels a progress bar lights,
`lit = floor(pixelCount * clamp(percent, 0, 100) / 100)`. -/
def progressLit (N : Nat) (percent : Int) : Nat :=
  N * (max 0 (min percent 100)).toNat / 100

theorem progressLit_le (N : Nat) (percent : Int) : progressLit N percent ≤ N := by
  have hq : (max 0 (min percent 100)).toNat ≤ 100 := by
    have : max 0 (min percent 100) ≤ 100 := by omega
    omega
  calc N * (max 0 (min percent 100)).toNat / 100 ≤ N * 100 / 100 :=
        Nat.div_le_div_right (Nat.mul_le_mul_left N hq)
    _ = N := by omega

theorem setProgress_bitmap_eq (s : LEDControl) (N : Nat) (c : CRGB) (percent : Int)
    (hcnt : s._ledCount = (N : Int)) (hlit : progressLit N percent < 32) :
    (setProgress c percent s)._bitmap = 2 ^ progressLit N percent - 1 := by
  have hq : (if (if percent > 100 then (100:Int) else percent) < 0 then 0
      else if percent > 100 then (100:Int) else percent) = max 0 (min percent 100) := by
    split_ifs <;> omega
  have hq0 : (0:Int) ≤ max 0 (min percent 100) := le_max_left 0 _
  simp only [setProgress, hcnt]
  rw [hq]
  have hcast : ((N:Int) * max 0 (min percent 100))
      = ((N * (max 0 (min percent 100)).toNat : Nat) : Int) := by
    push_cast [Int.toNat_of_nonneg hq0]
    ring
  rw [hcast]
  have h3 : Int.tdiv ((N * (max 0 (min percent 100)).toNat : Nat) : Int) 100
      = ((N * (max 0 (min percent 100)).toNat / 100 : Nat) : Int) := by
    exact_mod_cast (Int.ofNat_tdiv (N * (max 0 (min percent 100)).toNat) 100).symm
  rw [h3]
  have h4 : (((N * (max 0 (min percent 100)).toNat / 100 : Nat) : Int) % 32).toNat
      = progressLit N percent := by
    unfold progressLit at hlit ⊢
    omega
  rw [h4]

/-- C3 amended: for every strip length N > 0, color, and integer percent,
setProgress clamps percent into [0,100] (percent = 150 behaves exactly as
100 and percent = -5 exactly as 0), computes
lit = floor(N * percent / 100), and — provided lit < 32, the width of the
bitmap register — stores the bitmap with exactly bits 0..lit-1 set, so
the next tick lights pixels 0..lit-1 with the color and leaves the other
pixels black regardless of the prior mode.  (For lit ≥ 32 the shift count
wraps and the stored bitmap is wrong; see the counterexample.) -/
theorem C3_setProgress_clamped_bar (s : LEDControl) (N : Nat) (c : CRGB) (percent : Int)
    (hcnt : s._ledCount = (N : Int)) (hlit : progressLit N percent < 32) :
    (setProgress c percent s)._bitmap = 2 ^ progressLit N percent - 1 ∧
    (∀ i, i < N → (update (setProgress c percent s))._leds.getD i CRGB.Black
        = if i < progressLit N percent then c else CRGB.Black) ∧
    setProgress c 150 s = setProgress c 100 s ∧
    setProgress c (-5) s = setProgress c 0 s := by
  have hbm := setProgress_bitmap_eq s N c percent hcnt hlit
  refine ⟨hbm, ?_, by norm_num [setProgress], by norm_num [setProgress]⟩
  intro i hi
  have hleds : (update (setProgress c percent s))._leds
      = bitmapLoop (2 ^ progressLit N percent - 1) c (min N 32)
          (fill_solid s._leds N CRGB.Black) := by
    rw [update_bitmap_fresh _ (by simp [setProgress]) (by simp [setProgress])]
    rw [hbm]
    have hm32 : ((min ((setProgress c percent s)._ledCount) 32).toNat) = min N 32 := by
      simp only [setProgress, hcnt]
      rw [show ((32:Int)) = ((32:Nat):Int) from rfl, ← Nat.cast_min, Int.toNat_natCast]
    rw [hm32]
    simp [setProgress, hcnt]
  have hfl : (fill_solid s._leds N CRGB.Black).length = N + (s._leds.length - N) :=
    length_fill_solid s._leds N CRGB.Black
  have hilen : i < (fill_solid s._leds N CRGB.Black).length := by omega
  rw [hleds, getD_bitmapLoop _ _ _ _ _ _ hilen, getD_fill_solid]
  rw [Nat.testBit_two_pow_sub_one]
  have hlitN : progressLit N percent ≤ N := progressLit_le N percent
  rcases lt_or_ge i (progressLit N percent) with hil | hil
  · have h1 : i < min N 32 := by omega
    simp [h1, hil]
  · have h2 : ¬ i < progressLit N percent := by omega
    simp [h2, hi]

/-- C3 counterexample: on a 32-pixel strip at percent = 100, lit = 32 and
the claim demands a bitmap with exactly bits 0..31 set (2^32 - 1) and all
32 pixels lit; the stored bitmap is actually 0 (wrapped shift) and pixel 0
stays black after the next tick. -/
theorem C3_counterexample :
    (setProgress (CRGB.mk 255 0 0) 100
        (mkLEDControl 32 (List.replicate 32 CRGB.Black)))._bitmap = 0 ∧
    (0:Nat) ≠ 2 ^ 32 - 1 ∧
    (update (setProgress (CRGB.mk 255 0 0) 100
        (mkLEDControl 32 (List.replicate 32 CRGB.Black))))._leds.getD 0 CRGB.Black
      = CRGB.Black ∧
    CRGB.Black ≠ CRGB.mk 255 0 0 := by
  refine ⟨by decide, by decide, by decide, by decide⟩

/-- C3 witness: setProgress(red, 50) on a fresh 10-pixel strip stores
bitmap 2^5 - 1 and the next tick lights pixel 4 red and leaves pixel 5
black. -/
theorem C3_witness :
    (setProgress (CRGB.mk 255 0 0) 50
        (mkLEDControl 10 (List.replicate 10 CRGB.Black)))._bitmap
      = 2 ^ progressLit 10 50 - 1 ∧
    (update (setProgress (CRGB.mk 255 0 0) 50
        (mkLEDControl 10 (List.replicate 10 CRGB.Black))))._leds.getD 4 CRGB.Black
      = CRGB.mk 255 0 0 ∧
    (update (setProgress (CRGB.mk 255 0 0) 50
        (mkLEDControl 10 (List.replicate 10 CRGB.Black))))._leds.getD 5 CRGB.Black
      = CRGB.Black := by
  have h := C3_setProgress_clamped_bar
    (mkLEDControl 10 (List.replicate 10 CRGB.Black)) 10 (CRGB.mk 255 0 0) 50 rfl
    (by decide)
  refine ⟨h.1, ?_, ?_⟩
  · have h4 := h.2.1 4 (by decide)
    simpa [progressLit] using h4
  · have h5 := h.2.1 5 (by decide)
    simpa [progressLit] using h5

/-! ### Claim C6 -/

theorem shiftFwdBuf_length (n : Nat) (l : List CRGB) (hl : n ≤ l.length) :
    (shiftFwdBuf n l).length = l.length := by
  unfold shiftFwdBuf
  split
  · rfl
  · simp only [List.length_cons, List.length_append, List.length_take, List.length_drop]
    omega

theorem shiftFwdBuf_getD (n : Nat) (l : List CRGB) (hl : n ≤ l.length)
    (j : Nat) (hj : j < n) :
    (shiftFwdBuf n l).getD j CRGB.Black =
      if j = 0 then l.getD (n - 1) CRGB.Black else l.getD (j - 1) CRGB.Black := by
  have hn : ¬ n = 0 := by omega
  simp only [shiftFwdBuf, hn, if_false]
  rcases j with _ | j
  · simp
  · rw [List.getD_cons_succ]
    simp only [List.getD_eq_getElem?_getD, List.getElem?_append, List.length_take]
    have h1 : j < min (n - 1) l.length := by omega
    simp only [h1, if_true]
    have h2 : j < n - 1 := by omega
    simp [List.getElem?_take, h2]

/-- In steady MODE_RUNFWD state, k ticks are k buffer shifts and nothing
else changes. -/
theorem runfwd_steady_iterate (t : LEDControl) (hm : t._mode = MODE_RUNFWD)
    (hn : t._newMode = false) (k : Nat) :
    update^[k] t = { t with _leds := (shiftFwdBuf t._ledCount.toNat)^[k] t._leds } := by
  induction k with
  | zero => rfl
  | succ k ih =>
    rw [Function.iterate_succ_apply', ih, Function.iterate_succ_apply']
    simp [update, hm, hn, shiftFwd]

/-- Iterated forward shifts of a single-lit buffer: length is preserved
and the lit pixel sits at index k mod N. -/
theorem shiftFwd_iter_single (N : Nat) (hN : 0 < N) (c : CRGB) (e : List CRGB)
    (hlen : N ≤ e.length)
    (he : ∀ j, j < N → e.getD j CRGB.Black = if j = 0 then c else CRGB.Black)
    (k : Nat) :
    ((shiftFwdBuf N)^[k] e).length = e.length ∧
    ∀ j, j < N → ((shiftFwdBuf N)^[k] e).getD j CRGB.Black
      = if j = k % N then c else CRGB.Black := by
  induction k with
  | zero =>
    refine ⟨rfl, ?_⟩
    intro j hj
    simp only [Function.iterate_zero_apply]
    rw [he j hj, Nat.zero_mod]
  | succ k ih =>
    obtain ⟨ihlen, ihchar⟩ := ih
    have hlen2 : N ≤ ((shiftFwdBuf N)^[k] e).length := ihlen ▸ hlen
    constructor
    · rw [Function.iterate_succ_apply', shiftFwdBuf_length N _ hlen2, ihlen]
    · intro j hj
      rw [Function.iterate_succ_apply', shiftFwdBuf_getD N _ hlen2 j hj]
      have hr : k % N < N := Nat.mod_lt k hN
      have hmodsucc : (k + 1) % N = (k % N + 1) % N := by
        conv_lhs => rw [← Nat.mod_add_mod]
      rcases Nat.lt_or_ge (k % N) (N - 1) with hlt | hge
      · have hnext : (k + 1) % N = k % N + 1 := by
          rw [hmodsucc, Nat.mod_eq_of_lt (by omega)]
        rcases Nat.eq_zero_or_pos j with rfl | hjpos
        · rw [ihchar (N - 1) (by omega)]
          have h1 : ¬ (N - 1 = k % N) := by omega
          have h2 : ¬ ((0:Nat) = (k + 1) % N) := by omega
          simp [h1, h2]
        · have hj0 : ¬ (j = 0) := by omega
          rw [if_neg hj0, ihchar (j - 1) (by omega)]
          by_cases hcase : j - 1 = k % N
          · have hnc : j = (k + 1) % N := by omega
            rw [if_pos hcase, if_pos hnc]
          · have hnc : ¬ (j = (k + 1) % N) := by omega
            rw [if_neg hcase, if_neg hnc]
      · have hreq : k % N = N - 1 := by omega
        have hnext : (k + 1) % N = 0 := by
          rw [hmodsucc, hreq]
          have : N - 1 + 1 = N := by omega
          rw [this, Nat.mod_self]
        rcases Nat.eq_zero_or_pos j with rfl | hjpos
        · rw [ihchar (N - 1) (by omega)]
          simp [hreq, hnext]
        · have hj0 : ¬ (j = 0) := by omega
          rw [if_neg hj0, ihchar (j - 1) (by omega)]
          have h1 : ¬ (j - 1 = k % N) := by omega
          have h2 : ¬ (j = (k + 1) % N) := by omega
          simp [h1, h2]

/-- C6 counterexample: the claim quantifies over every baseColor, but with
baseColor = black on a 2-pixel strip the first tick leaves both pixels
equal to baseColor (the whole buffer is black), not exactly one. -/
theorem C6_counterexample :
    (update (setRunFwd CRGB.Black (mkLEDControl 2 (List.replicate 2 (CRGB.mk 9 9 9)))))._leds.getD 0 CRGB.Black
      = CRGB.Black ∧
    (update (setRunFwd CRGB.Black (mkLEDControl 2 (List.replicate 2 (CRGB.mk 9 9 9)))))._leds.getD 1 CRGB.Black
      = CRGB.Black := by
  constructor
  · decide
  · decide

/-- C6 amended: for every N > 0 and every baseColor other than black,
after setRunFwd the first tick lights exactly pixel 0 with baseColor and
every further tick moves the single lit pixel forward: after k further
ticks pixel (k mod N) holds baseColor and every other pixel below N is
black (with baseColor ≠ black this is exactly one lit pixel). -/
theorem C6_runforward_lit_index (s : LEDControl) (N : Nat) (c : CRGB)
    (hcnt : s._ledCount = (N : Int)) (hN : 0 < N) (_hc : c ≠ CRGB.Black)
    (k j : Nat) (hj : j < N) :
    (update^[k] (update (setRunFwd c s)))._leds.getD j CRGB.Black
      = if j = k % N then c else CRGB.Black := by
  have htoNat : s._ledCount.toNat = N := by rw [hcnt]; exact Int.toNat_natCast N
  have hfirst : update (setRunFwd c s)
      = { s with _mode := MODE_RUNFWD, _color := c, _newMode := false,
                 _leds := (fill_solid s._leds N CRGB.Black).set 0 c } := by
    simp [update, setRunFwd, htoNat]
  have hflen : N ≤ ((fill_solid s._leds N CRGB.Black).set 0 c).length := by
    rw [List.length_set, length_fill_solid]
    omega
  have he : ∀ j, j < N → ((fill_solid s._leds N CRGB.Black).set 0 c).getD j CRGB.Black
      = if j = 0 then c else CRGB.Black := by
    intro j hjN
    rw [getD_set, getD_fill_solid]
    rcases Nat.eq_zero_or_pos j with rfl | hjpos
    · have h0 : (0:Nat) < (fill_solid s._leds N CRGB.Black).length := by
        rw [length_fill_solid]; omega
      simp [h0]
    · have : ¬ ((0:Nat) = j ∧ (0:Nat) < (fill_solid s._leds N CRGB.Black).length) := by
        intro h; omega
      simp [this, hjN, Nat.pos_iff_ne_zero.mp hjpos]
  rw [hfirst, runfwd_steady_iterate _ rfl rfl k]
  simp only [htoNat]
  exact (shiftFwd_iter_single N hN c _ hflen he k).2 j hj

/-- C6 witness: on a fresh 4-pixel strip running red forward, after 6
further ticks the lit pixel is at index 6 mod 4 = 2. -/
theorem C6_witness :
    (update^[6] (update (setRunFwd (CRGB.mk 255 0 0)
        (mkLEDControl 4 (List.replicate 4 CRGB.Black)))))._leds.getD 2 CRGB.Black
      = CRGB.mk 255 0 0 := by
  have h := C6_runforward_lit_index (mkLEDControl 4 (List.replicate 4 CRGB.Black))
    4 (CRGB.mk 255 0 0) rfl (by decide) (by decide) 6 2 (by decide)
  simpa using h

/-! ### Claim C4 -/

/-- C4: on a 4-pixel strip, after setCylon(C) with a distinguishable
(non-black) color C, the index of the pixel holding C across successive
ticks is 0,1,2,3,3,2,1,0,0,1,2,... — the pattern of tick t+1 is the
single-lit buffer at index [0,1,2,3,3,2,1,0].get (t mod 8), each endpoint
dwelt for exactly one extra tick, so the cycle has period 2N = 8. -/
theorem C4_cylon_sequence (s : LEDControl) (c : CRGB)
    (hcnt : s._ledCount = 4) (hlen : s._leds.length = 4) (hc : c ≠ CRGB.Black)
    (t : Nat) :
    (update^[t + 1] (setCylon c s))._leds
      = (List.replicate 4 CRGB.Black).set ([0,1,2,3,3,2,1,0].getD (t % 8) 0) c := by
  have hbc : ¬ (CRGB.Black = c) := fun h => hc h.symm
  have hdrop : s._leds.drop 4 = [] := List.drop_eq_nil_of_le (by rw [hlen])
  have e1 : update (setCylon c s)
      = { s with _mode := MODE_CYLON, _color := c, _newMode := false, _curdir := MODE_RUNFWD, _leds := [c, CRGB.Black, CRGB.Black, CRGB.Black] } := by
    simp [update, setCylon, hcnt, fill_solid, hdrop]
  have e2 : update ({ s with _mode := MODE_CYLON, _color := c, _newMode := false, _curdir := MODE_RUNFWD, _leds := [c, CRGB.Black, CRGB.Black, CRGB.Black] })
      = { s with _mode := MODE_CYLON, _color := c, _newMode := false, _curdir := MODE_RUNFWD, _leds := [CRGB.Black, c, CRGB.Black, CRGB.Black] } := by
    simp [update, hcnt, hbc, shiftFwd, shiftFwdBuf]
  have e3 : update ({ s with _mode := MODE_CYLON, _color := c, _newMode := false, _curdir := MODE_RUNFWD, _leds := [CRGB.Black, c, CRGB.Black, CRGB.Black] })
      = { s with _mode := MODE_CYLON, _color := c, _newMode := false, _curdir := MODE_RUNFWD, _leds := [CRGB.Black, CRGB.Black, c, CRGB.Black] } := by
    simp [update, hcnt, hbc, shiftFwd, shiftFwdBuf]
  have e4 : update ({ s with _mode := MODE_CYLON, _color := c, _newMode := false, _curdir := MODE_RUNFWD, _leds := [CRGB.Black, CRGB.Black, c, CRGB.Black] })
      = { s with _mode := MODE_CYLON, _color := c, _newMode := false, _curdir := MODE_RUNFWD, _leds := [CRGB.Black, CRGB.Black, CRGB.Black, c] } := by
    simp [update, hcnt, hbc, shiftFwd, shiftFwdBuf]
  have e5 : update ({ s with _mode := MODE_CYLON, _color := c, _newMode := false, _curdir := MODE_RUNFWD, _leds := [CRGB.Black, CRGB.Black, CRGB.Black, c] })
      = { s with _mode := MODE_CYLON, _color := c, _newMode := false, _curdir := MODE_RUNREV, _leds := [CRGB.Black, CRGB.Black, CRGB.Black, c] } := by
    simp [update, hcnt]
  have e6 : update ({ s with _mode := MODE_CYLON, _color := c, _newMode := false, _curdir := MODE_RUNREV, _leds := [CRGB.Black, CRGB.Black, CRGB.Black, c] })
      = { s with _mode := MODE_CYLON, _color := c, _newMode := false, _curdir := MODE_RUNREV, _leds := [CRGB.Black, CRGB.Black, c, CRGB.Black] } := by
    simp [update, hcnt, hbc, shiftRev, shiftRevBuf]
  have e7 : update ({ s with _mode := MODE_CYLON, _color := c, _newMode := false, _curdir := MODE_RUNREV, _leds := [CRGB.Black, CRGB.Black, c, CRGB.Black] })
      = { s with _mode := MODE_CYLON, _color := c, _newMode := false, _curdir := MODE_RUNREV, _leds := [CRGB.Black, c, CRGB.Black, CRGB.Black] } := by
    simp [update, hcnt, hbc, shiftRev, shiftRevBuf]
  have e8 : update ({ s with _mode := MODE_CYLON, _color := c, _newMode := false, _curdir := MODE_RUNREV, _leds := [CRGB.Black, c, CRGB.Black, CRGB.Black] })
      = { s with _mode := MODE_CYLON, _color := c, _newMode := false, _curdir := MODE_RUNREV, _leds := [c, CRGB.Black, CRGB.Black, CRGB.Black] } := by
    simp [update, hcnt, hbc, shiftRev, shiftRevBuf]
  have e9 : update ({ s with _mode := MODE_CYLON, _color := c, _newMode := false, _curdir := MODE_RUNREV, _leds := [c, CRGB.Black, CRGB.Black, CRGB.Black] })
      = { s with _mode := MODE_CYLON, _color := c, _newMode := false, _curdir := MODE_RUNFWD, _leds := [c, CRGB.Black, CRGB.Black, CRGB.Black] } := by
    simp [update, hcnt]
  have b1 : update^[1] (setCylon c s) = { s with _mode := MODE_CYLON, _color := c, _newMode := false, _curdir := MODE_RUNFWD, _leds := [c, CRGB.Black, CRGB.Black, CRGB.Black] } := by
    simpa using e1
  have b2 : update^[2] (setCylon c s) = { s with _mode := MODE_CYLON, _color := c, _newMode := false, _curdir := MODE_RUNFWD, _leds := [CRGB.Black, c, CRGB.Black, CRGB.Black] } := by
    rw [show update^[2] (setCylon c s) = update (update^[1] (setCylon c s)) from
      Function.iterate_succ_apply' update 1 (setCylon c s), b1, e2]
  have b3 : update^[3] (setCylon c s) = { s with _mode := MODE_CYLON, _color := c, _newMode := false, _curdir := MODE_RUNFWD, _leds := [CRGB.Black, CRGB.Black, c, CRGB.Black] } := by
    rw [show update^[3] (setCylon c s) = update (update^[2] (setCylon c s)) from
      Function.iterate_succ_apply' update 2 (setCylon c s), b2, e3]
  have b4 : update^[4] (setCylon c s) = { s with _mode := MODE_CYLON, _color := c, _newMode := false, _curdir := MODE_RUNFWD, _leds := [CRGB.Black, CRGB.Black, CRGB.Black, c] } := by
    rw [show update^[4] (setCylon c s) = update (update^[3] (setCylon c s)) from
      Function.iterate_succ_apply' update 3 (setCylon c s), b3, e4]
  have b5 : update^[5] (setCylon c s) = { s with _mode := MODE_CYLON, _color := c, _newMode := false, _curdir := MODE_RUNREV, _leds := [CRGB.Black, CRGB.Black, CRGB.Black, c] } := by
    rw [show update^[5] (setCylon c s) = update (update^[4] (setCylon c s)) from
      Function.iterate_succ_apply' update 4 (setCylon c s), b4, e5]
  have b6 : update^[6] (setCylon c s) = { s with _mode := MODE_CYLON, _color := c, _newMode := false, _curdir := MODE_RUNREV, _leds := [CRGB.Black, CRGB.Black, c, CRGB.Black] } := by
    rw [show update^[6] (setCylon c s) = update (update^[5] (setCylon c s)) from
      Function.iterate_succ_apply' update 5 (setCylon c s), b5, e6]
  have b7 : update^[7] (setCylon c s) = { s with _mode := MODE_CYLON, _color := c, _newMode := false, _curdir := MODE_RUNREV, _leds := [CRGB.Black, c, CRGB.Black, CRGB.Black] } := by
    rw [show update^[7] (setCylon c s) = update (update^[6] (setCylon c s)) from
      Function.iterate_succ_apply' update 6 (setCylon c s), b6, e7]
  have b8 : update^[8] (setCylon c s) = { s with _mode := MODE_CYLON, _color := c, _newMode := false, _curdir := MODE_RUNREV, _leds := [c, CRGB.Black, CRGB.Black, CRGB.Black] } := by
    rw [show update^[8] (setCylon c s) = update (update^[7] (setCylon c s)) from
      Function.iterate_succ_apply' update 7 (setCylon c s), b7, e8]
  have b9 : update^[9] (setCylon c s) = update^[1] (setCylon c s) := by
    rw [show update^[9] (setCylon c s) = update (update^[8] (setCylon c s)) from
      Function.iterate_succ_apply' update 8 (setCylon c s), b8, e9, b1]
  have hper : ∀ u, update^[u + 9] (setCylon c s) = update^[u + 1] (setCylon c s) := by
    intro u
    have h1 : update^[u + 9] (setCylon c s) = update^[u] (update^[9] (setCylon c s)) :=
      Function.iterate_add_apply update u 9 (setCylon c s)
    rw [h1, b9, Function.iterate_add_apply update u 1 (setCylon c s)]
  induction t using Nat.strong_induction_on with
  | _ t ih =>
    by_cases ht : t < 8
    · interval_cases t
      · show (update^[1] (setCylon c s))._leds = _
        rw [b1]
        rfl
      · show (update^[2] (setCylon c s))._leds = _
        rw [b2]
        rfl
      · show (update^[3] (setCylon c s))._leds = _
        rw [b3]
        rfl
      · show (update^[4] (setCylon c s))._leds = _
        rw [b4]
        rfl
      · show (update^[5] (setCylon c s))._leds = _
        rw [b5]
        rfl
      · show (update^[6] (setCylon c s))._leds = _
        rw [b6]
        rfl
      · show (update^[7] (setCylon c s))._leds = _
        rw [b7]
        rfl
      · show (update^[8] (setCylon c s))._leds = _
        rw [b8]
        rfl
    · have hmod : t % 8 = (t - 8) % 8 := by omega
      have hsplit : t + 1 = (t - 8) + 9 := by omega
      rw [hsplit, hper (t - 8), hmod, ih (t - 8) (by omega)]

/-- C4 witness: on a fresh 4-pixel strip running a red cylon, tick 6
(t = 5) lights pixel [0,1,2,3,3,2,1,0].get 5 = 2. -/
theorem C4_witness :
    (update^[6] (setCylon (CRGB.mk 255 0 0)
        (mkLEDControl 4 (List.replicate 4 CRGB.Black))))._leds
      = (List.replicate 4 CRGB.Black).set 2 (CRGB.mk 255 0 0) := by
  have h := C4_cylon_sequence (mkLEDControl 4 (List.replicate 4 CRGB.Black))
    (CRGB.mk 255 0 0) rfl rfl (by decide) 5
  simpa using h

/-! ### Claim C1 -/

theorem fill_solid_fill_solid (l : List CRGB) (n : Nat) (c c2 : CRGB) :
    fill_solid (fill_solid l n c) n c2 = fill_solid l n c2 := by
  unfold fill_solid
  congr 1
  simp

/-- The advancement of the (dimStep, direction) pair performed at the end
of every Breathe tick (lines 305-327). -/
def breatheNext : Nat × Mode → Nat × Mode
  | (k, d) =>
    if d = MODE_RUNFWD then
      if k = _numdims - 1 then (k, MODE_RUNREV) else (k + 1, d)
    else
      if k = 0 then (k, MODE_RUNFWD) else (k - 1, d)

theorem breathe_steady_step (t : LEDControl) (hm : t._mode = MODE_BREATHE)
    (hn : t._newMode = false) :
    update t = { t with
      _leds := fill_solid t._leds t._ledCount.toNat
        (nscale8x3_video t._color (_dimming.getD t._config 0)),
      _config := (breatheNext (t._config, t._curdir)).1,
      _curdir := (breatheNext (t._config, t._curdir)).2 } := by
  by_cases hdir : t._curdir = MODE_RUNFWD
  · by_cases hcfg : t._config = _numdims - 1 <;>
      simp [update, hm, hn, breatheNext, hdir, hcfg]
  · by_cases hcfg : t._config = 0 <;>
      simp [update, hm, hn, breatheNext, hdir, hcfg]

theorem breathe_iterate_form (t : LEDControl) (hm : t._mode = MODE_BREATHE)
    (hn : t._newMode = false) (k : Nat) :
    update^[k + 1] t = { t with
      _leds := fill_solid t._leds t._ledCount.toNat
        (nscale8x3_video t._color
          (_dimming.getD (breatheNext^[k] (t._config, t._curdir)).1 0)),
      _config := (breatheNext^[k + 1] (t._config, t._curdir)).1,
      _curdir := (breatheNext^[k + 1] (t._config, t._curdir)).2 } := by
  induction k with
  | zero =>
    simp [breathe_steady_step t hm hn]
  | succ k ih =>
    rw [Function.iterate_succ_apply' update (k + 1) t, ih, breathe_steady_step]
    · have hpair : breatheNext ((breatheNext^[k + 1] (t._config, t._curdir)).1,
          (breatheNext^[k + 1] (t._config, t._curdir)).2)
          = breatheNext^[k + 1 + 1] (t._config, t._curdir) := by
        rw [Function.iterate_succ_apply' breatheNext (k + 1) (t._config, t._curdir)]
      simp only [fill_solid_fill_solid, hpair]
    · exact hm
    · exact hn

/-- C1 counterexample: starting from the state set by setBreathe (dimStep
0, direction Forward) on a 1-pixel strip with base color red, after
exactly 2*(numDimLevels-1) = 30 ticks dimStep is 1 (not 0), the direction
is Reverse (not Forward), and the buffer written by tick 30 differs from
the buffer written by the first tick — so the breathing cycle does not
have period 30. -/
theorem C1_counterexample :
    (update^[30] (setBreathe (CRGB.mk 255 0 0) (mkLEDControl 1 [CRGB.Black])))._config = 1 ∧
    (update^[30] (setBreathe (CRGB.mk 255 0 0) (mkLEDControl 1 [CRGB.Black])))._curdir = MODE_RUNREV ∧
    (update^[30] (setBreathe (CRGB.mk 255 0 0) (mkLEDControl 1 [CRGB.Black])))._leds
      ≠ (update^[1] (setBreathe (CRGB.mk 255 0 0) (mkLEDControl 1 [CRGB.Black])))._leds := by
  refine ⟨by decide, by decide, by decide⟩

/-- C1 amended: the Breathe cycle has period 2*numDimLevels = 32 ticks,
not 2*(numDimLevels-1) = 30.  Starting from the state set by setBreathe
(dimStep = 0, direction = Forward), after exactly 32 ticks dimStep and
direction have returned to their original values (0, Forward) and the
buffer written by tick 32 equals the buffer written by the first tick:
the one-tick hold at each extreme makes each extreme render twice, giving
2*16 renders per cycle. -/
theorem C1_breathe_period_32 (s : LEDControl) (c : CRGB) :
    (update^[32] (setBreathe c s))._config = 0 ∧
    (update^[32] (setBreathe c s))._curdir = MODE_RUNFWD ∧
    (update^[32] (setBreathe c s))._leds = (update^[1] (setBreathe c s))._leds := by
  have hfirst : update (setBreathe c s)
      = update ({ setBreathe c s with _newMode := false }) := by
    simp [update, setBreathe]
  have h32 : update^[32] (setBreathe c s)
      = update^[32] ({ setBreathe c s with _newMode := false }) := by
    rw [show update^[32] (setBreathe c s) = update^[31] (update (setBreathe c s)) from
        Function.iterate_succ_apply update 31 (setBreathe c s), hfirst,
      ← Function.iterate_succ_apply update 31 ({ setBreathe c s with _newMode := false })]
  have h1 : update^[1] (setBreathe c s)
      = update^[1] ({ setBreathe c s with _newMode := false }) := by
    simpa using hfirst
  have hform32 := breathe_iterate_form ({ setBreathe c s with _newMode := false }) rfl rfl 31
  have hform1 := breathe_iterate_form ({ setBreathe c s with _newMode := false }) rfl rfl 0
  have p31 : breatheNext^[31] ((0:Nat), MODE_RUNFWD) = (0, MODE_RUNREV) := by decide
  have p32 : breatheNext^[31 + 1] ((0:Nat), MODE_RUNFWD) = (0, MODE_RUNFWD) := by decide
  rw [h32, h1, hform32, hform1]
  refine ⟨?_, ?_, ?_⟩
  · simp [setBreathe, p32]
  · simp [setBreathe, p32]
  · simp [setBreathe, p31]

/-! ### Claim C5 -/

/-- The bitmap transformation of a steady Marquee tick (line 284):
`_bitmap = (_bitmap << 1UL) | (_bitmap >> (m-1))`, with the left shift
wrapping at the 32-bit width of unsigned long.  Defined for m ≥ 1 (the
shift count m-1 is the one the source computes for any strip with at
least one pixel). -/
def marqueeStep (m : Nat) (b : Nat) : Nat :=
  ((b <<< 1) % 2 ^ 32) ||| (b >>> (m - 1))

/-- Modelled from the spec: circular left rotation by one position over an
active width of m bits — the bit leaving position m-1 re-enters at bit 0,
independent of the full integer width. -/
def rotl (m : Nat) (b : Nat) : Nat :=
  ((b <<< 1) % 2 ^ m) ||| (b >>> (m - 1))

/-- Garbage-bit invariant of the Marquee bitmap: every set bit at or above
the active width m has the bit m positions below it also set.  Bitmaps
whose set bits all lie below m satisfy it, and each Marquee step
preserves it, which is exactly why the low m bits of the stored bitmap
keep rotating correctly. -/
def MarqueeInv (m B : Nat) : Prop :=
  ∀ k, B.testBit (m + k) = true → B.testBit k = true

theorem marqueeInv_init (m b : Nat) (hb : b < 2 ^ m) : MarqueeInv m b := by
  intro k hk
  exfalso
  have hlt : b < 2 ^ (m + k) :=
    lt_of_lt_of_le hb (Nat.pow_le_pow_right (by omega) (by omega))
  rw [Nat.testBit_lt_two_pow hlt] at hk
  exact Bool.false_ne_true hk

theorem marqueeStep_lt (m B : Nat) (hB : B < 2 ^ 32) :
    marqueeStep m B < 2 ^ 32 := by
  have ha : (B <<< 1) % 2 ^ 32 < 2 ^ 32 := Nat.mod_lt _ (by norm_num)
  have hb2 : B >>> (m - 1) < 2 ^ 32 := by
    rw [Nat.shiftRight_eq_div_pow]
    exact lt_of_le_of_lt (Nat.div_le_self B _) hB
  exact Nat.or_lt_two_pow ha hb2

theorem marqueeStep_eff (m B : Nat) (h1 : 1 ≤ m) (h2 : m ≤ 32)
    (hinv : MarqueeInv m B) :
    marqueeStep m B % 2 ^ m = rotl m (B % 2 ^ m) := by
  apply Nat.eq_of_testBit_eq
  intro j
  by_cases hjm : j < m
  · have hj32 : j < 32 := lt_of_lt_of_le hjm h2
    simp only [marqueeStep, rotl, Nat.testBit_or, Nat.testBit_mod_two_pow,
      Nat.testBit_shiftLeft, Nat.testBit_shiftRight]
    by_cases hj0 : j = 0
    · subst hj0
      have hm1 : m - 1 < m := by omega
      simp [hjm, hj32, hm1]
    · have hj1 : 1 ≤ j := by omega
      have e1 : m - 1 + j = m + (j - 1) := by omega
      have h4 : ¬ (m - 1 + j < m) := by omega
      have h5 : j - 1 < m := by omega
      simp [hjm, hj32, hj1, h4, h5]
      rw [e1]
      cases hTB : B.testBit (m + (j - 1)) with
      | false => simp
      | true => simp [hinv (j - 1) hTB]
  · simp only [marqueeStep, rotl, Nat.testBit_or, Nat.testBit_mod_two_pow,
      Nat.testBit_shiftLeft, Nat.testBit_shiftRight]
    have hxmod : (B % 2 ^ m) < 2 ^ m := Nat.mod_lt _ (Nat.pos_pow_of_pos m (by omega))
    have hge : m ≤ m - 1 + j := by omega
    have hfalse : (B % 2 ^ m).testBit (m - 1 + j) = false :=
      Nat.testBit_lt_two_pow
        (lt_of_lt_of_le hxmod (Nat.pow_le_pow_right (by omega) hge))
    have hnlt : ¬ (m - 1 + j < m) := by omega
    simp [hjm, hfalse, hnlt]

theorem marqueeStep_inv (m B : Nat) (h1 : 1 ≤ m) (_h2 : m ≤ 32) (hB : B < 2 ^ 32)
    (hinv : MarqueeInv m B) : MarqueeInv m (marqueeStep m B) := by
  intro k hk
  simp only [marqueeStep, Nat.testBit_or, Nat.testBit_mod_two_pow,
    Nat.testBit_shiftLeft, Nat.testBit_shiftRight] at hk ⊢
  by_cases hmk : m + k < 32
  · have hk32 : k < 32 := by omega
    rw [Bool.or_eq_true] at hk
    rcases hk with h | h
    · have hbit : B.testBit (m + k - 1) = true := by
        simp only [Bool.and_eq_true, decide_eq_true_eq] at h
        exact h.2.2
      by_cases hk0 : k = 0
      · subst hk0
        have e0 : m - 1 + 0 = m - 1 := by omega
        have e1 : m + 0 - 1 = m - 1 := by omega
        rw [e1] at hbit
        rw [e0]
        simp [hbit]
      · have e : m + k - 1 = m + (k - 1) := by omega
        have hb2 : B.testBit (k - 1) = true := hinv (k - 1) (e ▸ hbit)
        simp [hk32, show 1 ≤ k by omega, hb2]
    · have e : m - 1 + (m + k) = m + (m - 1 + k) := by omega
      have hb2 : B.testBit (m - 1 + k) = true := hinv (m - 1 + k) (e ▸ h)
      simp [hb2]
  · exfalso
    have hge : 32 ≤ m - 1 + (m + k) := by omega
    have hfb : B.testBit (m - 1 + (m + k)) = false :=
      Nat.testBit_lt_two_pow
        (lt_of_lt_of_le hB (Nat.pow_le_pow_right (by omega) hge))
    simp [hmk, hfb] at hk

theorem marqueeStep_iter (m : Nat) (h1 : 1 ≤ m) (h2 : m ≤ 32) (b : Nat)
    (hb : b < 2 ^ m) (k : Nat) :
    ((marqueeStep m)^[k] b) % 2 ^ m = (rotl m)^[k] b ∧
    MarqueeInv m ((marqueeStep m)^[k] b) ∧
    (marqueeStep m)^[k] b < 2 ^ 32 := by
  induction k with
  | zero =>
    refine ⟨Nat.mod_eq_of_lt hb, marqueeInv_init m b hb, ?_⟩
    exact lt_of_lt_of_le hb (Nat.pow_le_pow_right (by omega) h2)
  | succ k ih =>
    obtain ⟨iheff, ihinv, ihlt⟩ := ih
    refine ⟨?_, ?_, ?_⟩
    · rw [Function.iterate_succ_apply' (marqueeStep m) k b,
        Function.iterate_succ_apply' (rotl m) k b,
        marqueeStep_eff m _ h1 h2 ihinv, iheff]
    · rw [Function.iterate_succ_apply' (marqueeStep m) k b]
      exact marqueeStep_inv m _ h1 h2 ihlt ihinv
    · rw [Function.iterate_succ_apply' (marqueeStep m) k b]
      exact marqueeStep_lt m _ ihlt

/-- The first tick in MODE_MARQUEE renders exactly like MODE_BITMAP. -/
theorem update_marquee_fresh (t : LEDControl) (hm : t._mode = MODE_MARQUEE)
    (hn : t._newMode = true) :
    update t = { t with
      _leds := bitmapLoop t._bitmap t._color (min t._ledCount 32).toNat
        (fill_solid t._leds t._ledCount.toNat CRGB.Black),
      _newMode := false } := by
  simp [update, hm, hn]

/-- A steady MODE_MARQUEE tick: shift the bitmap and re-render all pixels
below the active width. -/
theorem update_marquee_steady (t : LEDControl) (hm : t._mode = MODE_MARQUEE)
    (hn : t._newMode = false) :
    update t = { t with
      _bitmap := ((t._bitmap <<< 1) % 2 ^ 32)
        ||| (t._bitmap >>> (((min t._ledCount 32 - 1) % 32).toNat)),
      _leds := marqueeLoop
        (((t._bitmap <<< 1) % 2 ^ 32)
          ||| (t._bitmap >>> (((min t._ledCount 32 - 1) % 32).toNat)))
        t._color (min t._ledCount 32).toNat t._leds } := by
  simp [update, hm, hn]

theorem min_int_toNat (N : Nat) : (min ((N : Int)) 32).toNat = min N 32 := by
  have h : ((min N 32 : Nat) : Int) = min ((N : Int)) 32 := by push_cast; rfl
  rw [← h, Int.toNat_natCast]

theorem min_int_shift_toNat (N : Nat) (hN : 0 < N) :
    (((min ((N : Int)) 32) - 1) % 32).toNat = min N 32 - 1 := by
  have h : ((min N 32 : Nat) : Int) = min ((N : Int)) 32 := by push_cast; rfl
  rw [← h]
  have h1 : 1 ≤ min N 32 := by omega
  have h2 : min N 32 ≤ 32 := by omega
  generalize min N 32 = m at h1 h2 ⊢
  omega

/-- State invariant of the Marquee mode: after t+1 ticks from setMarquee
the stored bitmap is the t-fold Marquee step of the initial bitmap and
the buffer renders its bits below the active width. -/
theorem marquee_state_iter (s : LEDControl) (N : Nat) (c : CRGB) (b : Nat)
    (hcnt : s._ledCount = (N : Int)) (hN : 0 < N) (hb : b < 2 ^ (min N 32)) (t : Nat) :
    (update^[t + 1] (setMarquee c b s))._mode = MODE_MARQUEE ∧
    (update^[t + 1] (setMarquee c b s))._newMode = false ∧
    (update^[t + 1] (setMarquee c b s))._ledCount = (N : Int) ∧
    (update^[t + 1] (setMarquee c b s))._color = c ∧
    (update^[t + 1] (setMarquee c b s))._bitmap = (marqueeStep (min N 32))^[t] b ∧
    N ≤ (update^[t + 1] (setMarquee c b s))._leds.length ∧
    ∀ j, j < N → (update^[t + 1] (setMarquee c b s))._leds.getD j CRGB.Black
      = if j < min N 32 ∧ ((marqueeStep (min N 32))^[t] b).testBit j then c
        else CRGB.Black := by
  have htoNat : s._ledCount.toNat = N := by rw [hcnt]; exact Int.toNat_natCast N
  have hb32 : b < 2 ^ 32 :=
    lt_of_lt_of_le hb (Nat.pow_le_pow_right (by omega) (by omega))
  have hbmod : b % 2 ^ 32 = b := Nat.mod_eq_of_lt hb32
  induction t with
  | zero =>
    rw [show update^[0 + 1] (setMarquee c b s) = update (setMarquee c b s) by
      simp]
    rw [update_marquee_fresh _ (by simp [setMarquee]) (by simp [setMarquee])]
    refine ⟨rfl, rfl, by simp [setMarquee, hcnt], by simp [setMarquee], ?_, ?_, ?_⟩
    · simp only [setMarquee, Function.iterate_zero_apply]
      exact hbmod
    · simp only [setMarquee]
      rw [length_bitmapLoop, length_fill_solid]
      simp only [htoNat]
      omega
    · intro j hj
      simp only [setMarquee, hbmod, hcnt, min_int_toNat, Int.toNat_natCast,
        Function.iterate_zero_apply]
      have hjlen : j < (fill_solid s._leds N CRGB.Black).length := by
        rw [length_fill_solid]; omega
      rw [getD_bitmapLoop _ _ _ _ _ _ hjlen, getD_fill_solid]
      rcases Nat.lt_or_ge j (min N 32) with h | h
      · simp [h, hj]
      · have : ¬ (j < min N 32 ∧ (b.testBit j = true)) := by
          rintro ⟨h1, _⟩; omega
        have h2 : ¬ (j < min N 32) := by omega
        simp [h2, hj]
  | succ t ih =>
    obtain ⟨ihm, ihn, ihc, ihcol, ihbm, ihlen, ihchar⟩ := ih
    rw [show update^[t + 1 + 1] (setMarquee c b s)
        = update (update^[t + 1] (setMarquee c b s)) from
      Function.iterate_succ_apply' update (t + 1) (setMarquee c b s)]
    rw [update_marquee_steady _ ihm ihn]
    have hshift : ((min ((update^[t + 1] (setMarquee c b s))._ledCount) 32 - 1) % 32).toNat
        = min N 32 - 1 := by
      rw [ihc, min_int_shift_toNat N hN]
    have hstep : ((update^[t + 1] (setMarquee c b s))._bitmap <<< 1) % 2 ^ 32
        ||| ((update^[t + 1] (setMarquee c b s))._bitmap
          >>> ((min ((update^[t + 1] (setMarquee c b s))._ledCount) 32 - 1) % 32).toNat)
        = (marqueeStep (min N 32))^[t + 1] b := by
      rw [hshift, ihbm, Function.iterate_succ_apply' (marqueeStep (min N 32)) t b]
      rfl
    have hmint : (min ((update^[t + 1] (setMarquee c b s))._ledCount) 32).toNat
        = min N 32 := by
      rw [ihc, min_int_toNat]
    refine ⟨ihm, ihn, ihc, ihcol, ?_, ?_, ?_⟩
    · simp only [hstep]
    · rw [hstep, hmint, length_marqueeLoop]
      exact ihlen
    · intro j hj
      simp only [hstep, hmint]
      have hjlen : j < (update^[t + 1] (setMarquee c b s))._leds.length := by omega
      rw [getD_marqueeLoop _ _ _ _ _ _ hjlen]
      rw [ihcol]
      rcases Nat.lt_or_ge j (min N 32) with h | h
      · simp [h]
      · have h2 : ¬ (j < min N 32) := by omega
        rw [ihchar j hj]
        simp [h2]

/-- C5 counterexample: on a 4-pixel strip, setMarquee with bitmap 16
(bit 4 set, all bits below the active width m = 4 clear) has effective
bitmap 0, whose circular rotation renders every pixel black forever; but
the code's shift leaks the out-of-width bit back in and tick 2 lights
pixel 1 — the claim fails for bitmaps with set bits at or above
min(N,32). -/
theorem C5_counterexample :
    (update^[2] (setMarquee (CRGB.mk 255 0 0) 16
        (mkLEDControl 4 (List.replicate 4 CRGB.Black))))._leds.getD 1 CRGB.Black
      = CRGB.mk 255 0 0 ∧
    CRGB.mk 255 0 0 ≠ CRGB.Black := by
  refine ⟨by decide, by decide⟩

/-- C5 amended: for every N > 0 and every bitmap whose set bits all lie
below the active width m = min(N,32) (bitmap < 2^m), the first Marquee
tick renders the bitmap directly, and each later tick rotates the
effective bitmap circularly left by one position over width m (the bit
leaving position m-1 re-enters at bit 0, independent of the full integer
width) and re-renders all m pixels from it: set bits get the base color,
clear bits get black; pixels at or above m stay black.  (For bitmaps with
set bits at or above m the stored 32-bit value leaks them back into the
window and the rotation description fails; see the counterexample.) -/
theorem C5_marquee_effective_rotation (s : LEDControl) (N : Nat) (c : CRGB) (b : Nat)
    (hcnt : s._ledCount = (N : Int)) (hN : 0 < N) (hb : b < 2 ^ (min N 32)) :
    (∀ j, j < N → (update (setMarquee c b s))._leds.getD j CRGB.Black
        = if j < min N 32 ∧ b.testBit j then c else CRGB.Black) ∧
    ∀ t j, j < N → (update^[t + 2] (setMarquee c b s))._leds.getD j CRGB.Black
        = if j < min N 32 ∧ ((rotl (min N 32))^[t + 1] b).testBit j then c
          else CRGB.Black := by
  have hm1 : 1 ≤ min N 32 := by omega
  have hm2 : min N 32 ≤ 32 := by omega
  constructor
  · intro j hj
    have h := (marquee_state_iter s N c b hcnt hN hb 0).2.2.2.2.2.2 j hj
    rw [show update^[0 + 1] (setMarquee c b s) = update (setMarquee c b s) by simp]
      at h
    simpa using h
  · intro t j hj
    have h := (marquee_state_iter s N c b hcnt hN hb (t + 1)).2.2.2.2.2.2 j hj
    rw [show t + 1 + 1 = t + 2 from rfl] at h
    rw [h]
    rcases Nat.lt_or_ge j (min N 32) with hjm | hjm
    · have heff := (marqueeStep_iter (min N 32) hm1 hm2 b hb (t + 1)).1
      have hbit : ((marqueeStep (min N 32))^[t + 1] b).testBit j
          = ((rotl (min N 32))^[t + 1] b).testBit j := by
        rw [← heff, Nat.testBit_mod_two_pow]
        simp [hjm]
      rw [hbit]
    · have h2 : ¬ (j < min N 32) := by omega
      simp [h2]

/-- C5 witness: marquee with bitmap 0b0011 on a fresh 4-pixel strip; at
tick 4 the rotated effective bitmap is 0b1001, so pixel 0 is lit red
(the bit rotated out of position 3 re-entered at 0). -/
theorem C5_witness :
    (update^[4] (setMarquee (CRGB.mk 255 0 0) 3
        (mkLEDControl 4 (List.replicate 4 CRGB.Black))))._leds.getD 0 CRGB.Black
      = CRGB.mk 255 0 0 := by
  have h := (C5_marquee_effective_rotation
    (mkLEDControl 4 (List.replicate 4 CRGB.Black)) 4 (CRGB.mk 255 0 0) 3
    rfl (by decide) (by decide)).2 2 0 (by decide)
  rw [if_pos (by decide)] at h
  exact h
